import Mathlib

/-!
Shallow embedding of the AraliaOpenRAG pipeline (araliadata/AraliaOpenRAG).

Python dictionaries are modelled as association lists with string keys;
dictionary lookup that may raise KeyError is modelled in the Except monad.
Raised exceptions are modelled as Except.error carrying the message string.
The LLM gateway and the HTTP transport are external collaborators: each is
modelled as a trace, a function from the call index to the outcome of that call,
so that retry loops consume successive outcomes.
-/

namespace AraliaOpenRAG

/-- Association-list lookup with string keys, modelling Python dict
indexing where the dict is built with unique keys. -/
def assocFind {β : Type} (k : String) : List (String × β) → Option β
  | [] => none
  | (k2, v) :: rest => if k == k2 then some v else assocFind k rest

/-! ### Retry loops of the three LLM-driven stages

`src/nodes/search.py` lines 89-101: `for attempt in range(5)` with an
explicit `if attempt == 4: raise RuntimeError(...)` inside the except arm.

`src/nodes/planning.py` lines 54-108 and `src/nodes/execution.py`
(FilterDecisionNode) lines 91-107: `for _ in range(5): try ... break
except ... continue` followed by a `for`-`else` arm that raises.

Each loop is mirrored as a recursion on remaining fuel, starting from
attempt 0 with fuel 5, returning both the outcome and the number of
attempts that were made. -/

/-- Message of the RuntimeError raised by SearchNode.execute when the
extraction retry loop is exhausted (src/nodes/search.py line 100). -/
def searchFatalMsg : String := "Unable to extract relevant datasets after 5 attempts"

/-- Message of the RuntimeError raised by PlanningNode.execute when its
retry loop is exhausted (src/nodes/planning.py line 108). -/
def planningFatalMsg : String := "AI model failed to generate accurate API calls"

/-- Message of the RuntimeError raised by FilterDecisionNode.execute when
its retry loop is exhausted (src/nodes/execution.py line 107). -/
def filterFatalMsg : String := "AI model cannot select accurate filter value"

/-- Search retry loop: on a failed attempt the loop raises the fatal error
when `attempt == 4`, otherwise continues with the next attempt. -/
def searchGo {α : Type} (body : Nat → Except String α) : Nat → Nat → Except String α × Nat
  | attempt, fuel + 1 =>
    match body attempt with
    | .ok v => (.ok v, attempt + 1)
    | .error _ =>
      if attempt == 4 then (.error searchFatalMsg, attempt + 1)
      else searchGo body (attempt + 1) fuel
  | attempt, 0 => (.error searchFatalMsg, attempt)

/-- Search retry entry point: `for attempt in range(5)`. -/
def searchRetry {α : Type} (body : Nat → Except String α) : Except String α × Nat :=
  searchGo body 0 5

/-- Planning retry loop (`for`-`else`): failures continue; when the range
is exhausted without a `break`, the `else` arm raises the fatal error. -/
def planningGo {α : Type} (body : Nat → Except String α) : Nat → Nat → Except String α × Nat
  | attempt, fuel + 1 =>
    match body attempt with
    | .ok v => (.ok v, attempt + 1)
    | .error _ => planningGo body (attempt + 1) fuel
  | attempt, 0 => (.error planningFatalMsg, attempt)

/-- Planning retry entry point: `for _ in range(5)`. -/
def planningRetry {α : Type} (body : Nat → Except String α) : Except String α × Nat :=
  planningGo body 0 5

/-- Filter-decision retry loop (`for`-`else`), same shape as planning with
its own fatal message. -/
def filterGo {α : Type} (body : Nat → Except String α) : Nat → Nat → Except String α × Nat
  | attempt, fuel + 1 =>
    match body attempt with
    | .ok v => (.ok v, attempt + 1)
    | .error _ => filterGo body (attempt + 1) fuel
  | attempt, 0 => (.error filterFatalMsg, attempt)

/-- Filter-decision retry entry point: `for _ in range(5)`. -/
def filterRetry {α : Type} (body : Nat → Except String α) : Except String α × Nat :=
  filterGo body 0 5

/-! ### Node wrapper: BaseNode.handle_error and BaseNode.__call__
(src/nodes/base.py lines 121-162). -/

/-- Value stored in the execution-metadata mapping. -/
inductive MetaV : Type
  | b (v : Bool)
  | s (v : String)
  deriving DecidableEq

/-- Delta returned by a node invocation: the `errors` list, the
execution-metadata entries, and the normal payload of the node (its state
updates); `payload = none` models a delta that carries no update. -/
structure NDelta (α : Type) where
  errors : List String := []
  metadata : List (String × MetaV) := []
  payload : Option α := none
  deriving DecidableEq

/-- BaseNode.handle_error: formats the message as the node name followed
by " node error: " and the error text, and records True under the key
name_failed and the error string under the key name_error
(src/nodes/base.py lines 121-139). -/
def handleError {α : Type} (nm msg : String) : NDelta α :=
  { errors := [nm ++ " node error: " ++ msg],
    metadata := [(nm ++ "_failed", MetaV.b true), (nm ++ "_error", MetaV.s msg)],
    payload := none }

/-- BaseNode.__call__ (src/nodes/base.py lines 141-162): validate the
input (a raising validator or a False result both route to handle_error
with message "Invalid input state" in the False case), run execute inside
the try, and convert any raised exception into the handle_error delta.
The function is total: no exception propagates to the caller. -/
def nodeCall {σ α : Type} (nm : String) (validate : σ → Except String Bool)
    (execute : σ → Except String (NDelta α)) (st : σ) : NDelta α :=
  match validate st with
  | .error msg => handleError nm msg
  | .ok false => handleError nm "Invalid input state"
  | .ok true =>
    match execute st with
    | .error msg => handleError nm msg
    | .ok d => d

/-! ### Search stage (src/nodes/search.py) -/

/-- Dataset summary as returned by AraliaClient.search_datasets. -/
structure Dataset where
  id : String
  name : String
  sourceURL : String
  deriving DecidableEq

/-- Structured output schema DatasetExtractOutput
(src/schemas/models.py): `dataset_key` and `dataset_name`. -/
structure SearchOut where
  datasetKey : List String
  datasetName : List String
  deriving DecidableEq

/-- The list comprehension of SearchNode.execute lines 92-95:
`[datasets[item] for item in response["dataset_key"] if item in datasets]`.
Keys missing from the candidate dict are skipped by the guard. -/
def searchSelect (datasets : List (String × Dataset)) : List String → List Dataset
  | [] => []
  | k :: rest =>
    match assocFind k datasets with
    | some d => d :: searchSelect datasets rest
    | none => searchSelect datasets rest

/-- One attempt of the search retry loop: the structured LLM call
(modelled by the trace `att`) followed by the selection comprehension.
The comprehension itself cannot raise. -/
def searchBody (att : Nat → Except String SearchOut)
    (datasets : List (String × Dataset)) (i : Nat) : Except String (List Dataset) :=
  (att i).map (fun o => searchSelect datasets o.datasetKey)

/-- SearchNode.execute, from the retry loop on: returns the delta whose
payload is the filtered dataset list (the bookkeeping fields
total_datasets_found / selected_dataset_count are not modelled). -/
def searchExecute (att : Nat → Except String SearchOut)
    (datasets : List (String × Dataset)) : Except String (NDelta (List Dataset)) :=
  match (searchRetry (searchBody att datasets)).1 with
  | .ok sel => .ok { payload := some sel }
  | .error m => .error m

/-! ### Planning stage (src/nodes/planning.py) -/

/-- Column metadata entry of a dataset after
AraliaClient.get_dataset_metadata processing (src/tools/aralia.py): the
fields the planning comprehension reads. -/
structure Column where
  columnID : String
  displayName : String
  type : String
  deriving DecidableEq

/-- Dataset enriched with column metadata:
`datasets[id] = {**dataset, **metadata}` (src/nodes/planning.py lines
33-40); `columns` is the dict columnID to column. -/
structure DSMeta where
  id : String
  name : String
  sourceURL : String
  columns : List (String × Column)
  deriving DecidableEq

/-- An x-axis or filter entry proposed by the planning LLM: the code
reads `columnID`, `type` and `format` from it. -/
structure XProp where
  columnID : String
  type : String
  format : String
  deriving DecidableEq

/-- A y-axis entry proposed by the planning LLM: the code reads
`columnID`, `type` and `calculation`. -/
structure YProp where
  columnID : String
  type : String
  calculation : String
  deriving DecidableEq

/-- One chart of the parsed planning JSON (`response_json["charts"]`). -/
structure PlanChart where
  id : String
  x : List XProp
  y : List YProp
  filter : List XProp
  deriving DecidableEq

/-- Parsed planning LLM output: the object holding the `charts` key. -/
structure PlanJson where
  charts : List PlanChart
  deriving DecidableEq

/-- PromptTemplates.get_format_options()["calculation"]
(src/schemas/prompts.py lines 266-268). -/
def calcOptions : List String :=
  ["count", "sum", "avg", "min", "max", "distinct_count"]

/-- PromptTemplates.get_format_options()["date"]
(src/schemas/prompts.py lines 257-261). -/
def dateOptions : List String :=
  ["year", "quarter", "month", "week", "date", "day", "weekday",
   "year_month", "year_quarter", "year_week", "month_day",
   "day_hour", "hour", "minute", "second", "hour_minute", "time"]

/-- PromptTemplates.get_format_options()["space"]
(src/schemas/prompts.py lines 262-265). -/
def spaceOptions : List String :=
  ["admin_level_2", "admin_level_3", "admin_level_4", "admin_level_5",
   "admin_level_6", "admin_level_7", "admin_level_8", "admin_level_9",
   "admin_level_10"]

/-- Format normalization of the planning comprehension (lines 68-74 and
89-95 of src/nodes/planning.py): a three-armed conditional whose every
arm yields the proposed format unchanged (an invalid format is passed
through). -/
def planFormat (ty fmt : String) : String :=
  if ¬ (ty == "date" || ty == "datetime" || ty == "space") then fmt
  else if ((ty == "date" || ty == "datetime") && dateOptions.contains fmt)
       || (ty == "space" && spaceOptions.contains fmt) then fmt
  else fmt

/-- Built x-axis or filter field: the column metadata merged with the
format override `{**columns[cid], "format": ...}`. -/
structure BuiltX where
  columnID : String
  displayName : String
  type : String
  format : String
  deriving DecidableEq

/-- Built y-axis field: the column metadata merged with the calculation
`{**columns[cid], "calculation": y["calculation"]}`. -/
structure BuiltY where
  columnID : String
  displayName : String
  type : String
  calculation : String
  deriving DecidableEq

/-- Chart spec built by the planning comprehension (dataset fields minus
`columns`, with built x, y and filter lists). -/
structure BuiltChart where
  id : String
  name : String
  sourceURL : String
  x : List BuiltX
  y : List BuiltY
  filter : List BuiltX
  deriving DecidableEq

/-- Guard of the y comprehension (src/nodes/planning.py line 84):
`y["type"] in ["integer", "float"] and y["calculation"] in
format_opts["calculation"]`. -/
def keepY (y : YProp) : Bool :=
  (y.type == "integer" || y.type == "float") && calcOptions.contains y.calculation

/-- The x (and filter) comprehension of planning: for each proposal, look
up its column (KeyError on a missing columnID) and override the format. -/
def planningBuildX (cols : List (String × Column)) : List XProp → Except String (List BuiltX)
  | [] => .ok []
  | x :: rest =>
    match assocFind x.columnID cols with
    | none => .error ("KeyError: " ++ x.columnID)
    | some c =>
      match planningBuildX cols rest with
      | .ok built =>
        .ok ({ columnID := c.columnID, displayName := c.displayName,
               type := c.type, format := planFormat x.type x.format } :: built)
      | .error m => .error m

/-- The y comprehension of planning: proposals failing the `keepY` guard
are skipped before any column lookup; kept proposals look up their column
(KeyError on a missing columnID) and carry the proposed calculation. -/
def planningBuildY (cols : List (String × Column)) : List YProp → Except String (List BuiltY)
  | [] => .ok []
  | y :: rest =>
    if keepY y then
      match assocFind y.columnID cols with
      | none => .error ("KeyError: " ++ y.columnID)
      | some c =>
        match planningBuildY cols rest with
        | .ok built =>
          .ok ({ columnID := c.columnID, displayName := c.displayName,
                 type := c.type, calculation := y.calculation } :: built)
        | .error m => .error m
    else planningBuildY cols rest

/-- Build of one chart spec (src/nodes/planning.py lines 62-101):
`datasets[chart["id"]]` may raise KeyError; then build x, y, filter. -/
def planningBuildChart (datasets : List (String × DSMeta)) (c : PlanChart) :
    Except String BuiltChart :=
  match assocFind c.id datasets with
  | none => .error ("KeyError: " ++ c.id)
  | some ds => do
    let bx ← planningBuildX ds.columns c.x
    let ys ← planningBuildY ds.columns c.y
    let bf ← planningBuildX ds.columns c.filter
    .ok { id := ds.id, name := ds.name, sourceURL := ds.sourceURL,
          x := bx, y := ys, filter := bf }

/-- One attempt of the planning retry loop. The trace `att` models lines
56-59 of src/nodes/planning.py: the free-form LLM invoke, the extraction
of the last fenced json block, and `json.loads`; any failure there
(including a missing `charts` key) is an `Except.error`. The chart build
is modelled concretely. -/
def planningBody (att : Nat → Except String PlanJson)
    (datasets : List (String × DSMeta)) (i : Nat) : Except String (List BuiltChart) := do
  let js ← att i
  js.charts.mapM (planningBuildChart datasets)

/-- Metadata-fetch loop of PlanningNode.execute (lines 33-40): keep the
datasets whose fetch yields metadata, keyed by dataset id. -/
def planningMergeDatasets (fetch : Dataset → Option (List (String × Column)))
    (resp : List Dataset) : List (String × DSMeta) :=
  resp.filterMap fun d =>
    (fetch d).map fun cols => (d.id, { id := d.id, name := d.name,
                                       sourceURL := d.sourceURL, columns := cols })

/-- Planning input state: the question and the dataset list produced by
the search stage (`state["response"]`). -/
structure PlanState where
  question : Option String
  response : List Dataset
  deriving DecidableEq

/-- BaseNode.validate_input (src/nodes/base.py line 48): `"question" in
state and state["question"] is not None`. -/
def planningValidate (s : PlanState) : Except String Bool :=
  .ok s.question.isSome

/-- PlanningNode.execute (src/nodes/planning.py lines 16-110): fetch
metadata per dataset; raise the no-data RuntimeError when no dataset
yields metadata; otherwise run the retry loop and return the delta whose
payload is the built chart list. -/
def planningExecute (fetch : Dataset → Option (List (String × Column)))
    (att : Nat → Except String PlanJson) (s : PlanState) :
    Except String (NDelta (List BuiltChart)) :=
  let datasets := planningMergeDatasets fetch s.response
  if datasets.isEmpty then
    .error "Unable to retrieve data from the searched planet, program terminated"
  else
    match (planningRetry (planningBody att datasets)).1 with
    | .ok charts => .ok { payload := some charts }
    | .error m => .error m

/-- The planning node as invoked by the graph: PlanningNode is called
through BaseNode.__call__. -/
def planningCall (fetch : Dataset → Option (List (String × Column)))
    (att : Nat → Except String PlanJson) (s : PlanState) : NDelta (List BuiltChart) :=
  nodeCall "planning" planningValidate (planningExecute fetch att) s

/-! ### Filter-Decision stage (FilterDecisionNode, src/nodes/execution.py
lines 60-109). The structured output schema QueryList
(src/schemas/models.py) fixes the shape of each returned chart; `format`
is modelled as an Option so that `x.pop("format", None)` becomes setting
it to `none` (key removed). -/

/-- XAxis entry of a QueryConfig (src/schemas/models.py). -/
structure QX where
  columnID : String
  displayName : String
  type : String
  format : Option String
  deriving DecidableEq

/-- YAxis entry of a QueryConfig: no `type` and no `format` field. -/
structure QY where
  columnID : String
  displayName : String
  calculation : String
  deriving DecidableEq

/-- FilterConfig entry of a QueryConfig. -/
structure QFilter where
  columnID : String
  displayName : String
  type : String
  format : Option String
  operator : String
  value : List String
  deriving DecidableEq

/-- QueryConfig as returned by the structured LLM call. -/
structure QueryChart where
  sourceURL : String
  id : String
  name : String
  x : List QX
  y : List QY
  filter : List QFilter
  deriving DecidableEq

/-- Chart after the filter-decision post-processing: the `filter` value
has gained one list level. -/
structure QueryChartOut where
  sourceURL : String
  id : String
  name : String
  x : List QX
  y : List QY
  filter : List (List QFilter)
  deriving DecidableEq

/-- Post-processing of one x entry (src/nodes/execution.py lines 95-97):
`if x["type"] not in {"date", "datetime", "space"}: x.pop("format", None)`. -/
def stripXFormat (x : QX) : QX :=
  if x.type == "date" || x.type == "datetime" || x.type == "space" then x
  else { x with format := none }

/-- Post-processing of one filter entry (lines 98-100), same rule. -/
def stripFilterFormat (f : QFilter) : QFilter :=
  if f.type == "date" || f.type == "datetime" || f.type == "space" then f
  else { f with format := none }

/-- Post-processing of one chart (lines 94-101): strip formats on x and
filter entries, then wrap: `chart["filter"] = [chart["filter"]]`. -/
def fdPostChart (c : QueryChart) : QueryChartOut :=
  { sourceURL := c.sourceURL, id := c.id, name := c.name,
    x := c.x.map stripXFormat, y := c.y,
    filter := [c.filter.map stripFilterFormat] }

/-- One attempt of the filter-decision retry loop: the structured LLM
call (trace `att` models `structured_llm.invoke(prompt).dict()["querys"]`)
followed by the per-chart post-processing, which cannot raise. -/
def filterBody (att : Nat → Except String (List QueryChart)) (i : Nat) :
    Except String (List QueryChartOut) :=
  (att i).map (List.map fdPostChart)

/-- FilterDecisionNode.execute from the retry loop on (the preceding
get_filter_options calls mutate filter value domains feeding the prompt
and do not affect the post-processing). -/
def filterExecute (att : Nat → Except String (List QueryChart)) :
    Except String (NDelta (List QueryChartOut)) :=
  match (filterRetry (filterBody att)).1 with
  | .ok charts => .ok { payload := some charts }
  | .error m => .error m

/-! ### DataProcessor (src/tools/data_processing.py) -/

/-- Cell of the flattened table: strings from the x arrays, numbers from
the values arrays. -/
inductive Cell : Type
  | s (v : String)
  | n (v : Int)
  deriving DecidableEq

/-- One raw exploration row: parallel `x` (a list of per-dimension lists)
and `values` arrays. -/
structure Row where
  x : List (List String)
  values : List Int
  deriving DecidableEq

/-- Flattened tabular result of parse_exploration_results. -/
structure Table where
  header : List String
  rows : List (List Cell)
  deriving DecidableEq

/-- Python `item[0]`: IndexError on an empty list. -/
def headE : List String → Except String String
  | [] => .error "IndexError: list index out of range"
  | v :: _ => .ok v

/-- Per-row flattening `combined_x = [item[0] for item in row["x"]]`. -/
def rowCombinedX (r : Row) : Except String (List String) :=
  r.x.mapM headE

/-- DataProcessor.parse_exploration_results (src/tools/data_processing.py
lines 16-62). Column naming: the custom labels are used only when
non-empty and matching the width (first x row for x, the values width for
values); otherwise positional names x1.. / value1.. are used. Inputs of
non-uniform shape are modelled as errors (the caller catches them). -/
def parseExploration (rows : List Row) (xLabels vLabels : List String) :
    Except String Table :=
  match rows with
  | [] => .error "IndexError: list index out of range"
  | r0 :: _ => do
    let xcols ← rows.mapM rowCombinedX
    let width := (xcols.headD []).length
    let vwidth := r0.values.length
    if !(xcols.all fun c => c.length == width) then
      .error "ValueError: x shape mismatch"
    else if !(rows.all fun r => r.values.length == vwidth) then
      .error "ValueError: values shape mismatch"
    else
      let xhdr := if xLabels ≠ [] ∧ xLabels.length = width then xLabels
                  else (List.range width).map fun i => "x" ++ toString (i + 1)
      let vhdr := if vLabels ≠ [] ∧ vLabels.length = vwidth then vLabels
                  else (List.range vwidth).map fun i => "value" ++ toString (i + 1)
      .ok { header := xhdr ++ vhdr,
            rows := List.zipWith
              (fun xc r => xc.map Cell.s ++ r.values.map Cell.n) xcols rows }

/-- Truncation `parsed_df.head(n)`. -/
def tableHead (n : Nat) (t : Table) : Table :=
  { t with rows := t.rows.take n }

/-- Serialization `to_json(orient="records")`: one object per row,
pairing each column name with the cell (string production abstracted to
the record structure). -/
def toRecords (t : Table) : List (List (String × Cell)) :=
  t.rows.map fun r => t.header.zip r

/-- DataProcessor.save_results_to_csv path construction
(src/tools/data_processing.py lines 80-91). -/
def csvFilePath (nm : String) : String :=
  "csv_img/" ++ (nm.replace "/" "_") ++ ".csv"

/-- Axis entry as consulted for labels:
`x_axis.get("displayName", positional fallback)`. -/
structure AxCfg where
  displayName : Option String
  deriving DecidableEq

/-- chart_config argument of prepare_chart_data. -/
structure ChartCfg where
  name : Option String
  x : List AxCfg
  y : List AxCfg
  deriving DecidableEq

/-- Dict returned by prepare_chart_data, fields as optional keys: a
`none` field models a key that is absent from the returned dict. The
`data` key maps to `some none` when the dict holds `data: None`. -/
structure ChartUpdate where
  data : Option (Option Table) := none
  jsonData : Option (List (List (String × Cell))) := none
  errorMsg : Option String := none
  csvPath : Option String := none
  rowCount : Option Nat := none
  colCount : Option Nat := none
  deriving DecidableEq

/-- Axis labels of prepare_chart_data (lines 113-114): zero-based
positional fallback names built from the prefix and the index. -/
def cfgLabels (pre : String) (axs : List AxCfg) : List String :=
  axs.enum.map fun p => p.2.displayName.getD (pre ++ toString p.1)

/-- DataProcessor.prepare_chart_data (src/tools/data_processing.py lines
93-137): empty results short-circuit to `{"data": None, "error": "No
data available"}` with no json_data key; otherwise parse, and on success
return data, json_data (records of the first 400 rows), csv_path,
row_count and column_count; a parse failure is caught and returned as
`{"data": None, "error": str(e)}`. -/
def prepareChartData (results : List Row) (cfg : ChartCfg) : ChartUpdate :=
  if results.isEmpty then
    { data := some none, errorMsg := some "No data available" }
  else
    match parseExploration results (cfgLabels "x" cfg.x) (cfgLabels "y" cfg.y) with
    | .ok t =>
      { data := some (some t),
        jsonData := some (toRecords (tableHead 400 t)),
        csvPath := some (csvFilePath (cfg.name.getD "chart_data")),
        rowCount := some t.rows.length,
        colCount := some t.header.length }
    | .error e => { data := some none, errorMsg := some e }

/-! ### Execution stage (ExecutionNode, src/nodes/execution.py lines
9-57) and AraliaClient.execute_exploration (src/tools/aralia.py lines
248-274). -/

/-- The json_data slot of a chart dict: the key may be absent, hold
Python None, or hold the serialized records. -/
inductive JsonField : Type
  | absent
  | null
  | recs (v : List (List (String × Cell)))
  deriving DecidableEq

/-- Decidable equality for Except values, needed to evaluate concrete
chart states. -/
instance {ε α : Type} [DecidableEq ε] [DecidableEq α] : DecidableEq (Except ε α) := fun x y =>
  match x, y with
  | .ok a, .ok b =>
    if h : a = b then .isTrue (by rw [h])
    else .isFalse (by intro hc; cases hc; exact h rfl)
  | .ok _, .error _ => .isFalse (by intro hc; cases hc)
  | .error _, .ok _ => .isFalse (by intro hc; cases hc)
  | .error a, .error b =>
    if h : a = b then .isTrue (by rw [h])
    else .isFalse (by intro hc; cases hc; exact h rfl)

/-- Chart dict as it flows through the execution stage. `hasIdUrl` is
whether the dict has its `id` and `sourceURL` keys (their access in
execute_exploration sits before its try block and raises KeyError when
missing); `callResult` is the outcome of the underlying _make_request
HTTP call for this chart. The remaining fields start out absent and are
filled by `chart.update(chart_data)`. -/
structure EChart where
  name : Option String
  x : List AxCfg
  y : List AxCfg
  hasIdUrl : Bool
  callResult : Except String (List Row)
  dataF : Option (Option Table) := none
  jsonData : JsonField := .absent
  errorMsg : Option String := none
  csvPath : Option String := none
  rowCount : Option Nat := none
  colCount : Option Nat := none
  deriving DecidableEq

/-- AraliaClient.execute_exploration: the id/sourceURL access may raise
KeyError; the request itself is wrapped in try/except and a failure is
swallowed, returning the empty list. -/
def executeExploration (c : EChart) : Except String (List Row) :=
  if c.hasIdUrl then
    .ok (match c.callResult with
         | .ok rows => rows
         | .error _ => [])
  else .error "KeyError: id"

/-- chart_config built by ExecutionNode.execute (lines 42-46):
`chart.get("name", "chart")` plus the x and y lists. -/
def chartCfg (c : EChart) : ChartCfg :=
  { name := some (c.name.getD "chart"), x := c.x, y := c.y }

/-- Python `chart.update(chart_data)`: keys present in the update dict
overwrite the entries of the chart, absent keys leave them unchanged. -/
def applyUpdate (c : EChart) (u : ChartUpdate) : EChart :=
  { c with
    dataF := u.data.or c.dataF,
    jsonData := match u.jsonData with
                | some r => .recs r
                | none => c.jsonData,
    errorMsg := u.errorMsg.or c.errorMsg,
    csvPath := u.csvPath.or c.csvPath,
    rowCount := u.rowCount.or c.rowCount,
    colCount := u.colCount.or c.colCount }

/-- Body of the per-chart try block of ExecutionNode.execute (lines
34-49): exploration then processing (prepare_chart_data is itself
total, catching its own failures). -/
def chartTryBody (c : EChart) : Except String ChartUpdate :=
  match executeExploration c with
  | .ok rows => .ok (prepareChartData rows (chartCfg c))
  | .error m => .error m

/-- Per-chart processing with the except arm (lines 51-53): on a raised
exception the json_data key of the chart is set to None and the loop
continues. -/
def processChart (c : EChart) : EChart :=
  match chartTryBody c with
  | .ok upd => applyUpdate c upd
  | .error _ => { c with jsonData := .null }

/-- Delta returned by ExecutionNode.execute:
`{"search_results": [state["response"]]}` with the charts mutated in
place. -/
structure ExecDelta where
  search_results : List (List EChart)
  deriving DecidableEq

/-- ExecutionNode.execute (lines 16-57): process every chart (each inside
its own try/except) and return the wrapped list. The function is total:
no per-chart failure escapes. -/
def executionExecute (charts : List EChart) : ExecDelta :=
  { search_results := [charts.map processChart] }

/-! ### Interpretation stage (src/nodes/interpretation.py) -/

/-- Interpretation input state: the fields its execute reads. A `none`
models a key absent from the state dict. The accumulated result items
are kept opaque (they are only rendered into the prompt). -/
structure InterpState where
  question : String
  search_results : Option (List String)
  response : Option (List String)
  interpretation_prompt : Option String
  deriving DecidableEq

/-- Line 45 of src/nodes/interpretation.py:
`state.get("search_results", state.get("response", []))` - the fallback
to `response` applies only when the search_results key is absent; a
present empty list is used as is. -/
def interpSelectInfo (s : InterpState) : List String :=
  match s.search_results with
  | some l => l
  | none => s.response.getD []

/-- Prompt built by InterpretationNode.execute (lines 48-75): question
plus rendered information, with either the caller-supplied override or
the default instruction block (instruction text abbreviated; prompt
template wording is outside the specified core). -/
def interpPrompt (s : InterpState) : String :=
  let info := String.intercalate ", " (interpSelectInfo s)
  match s.interpretation_prompt with
  | some p => "Question: ***" ++ s.question ++ "*** Information: " ++ info ++ " " ++ p
  | none => "Question: ***" ++ s.question ++ "*** Information: " ++ info ++
      " default analyst instructions"

/-- Delta returned by InterpretationNode.execute: only final_response is
set; the absence of a search_results entry models that the delta does
not touch it. -/
structure InterpDelta where
  final_response : Option String := none
  search_results : Option (List String) := none
  deriving DecidableEq

/-- InterpretationNode.execute (lines 35-89): build the prompt, invoke
the LLM once (no retry loop), return the content as final_response. The
second component counts the LLM invocations made. -/
def interpExecute (llm : String → String) (s : InterpState) : InterpDelta × Nat :=
  ({ final_response := some (llm (interpPrompt s)) }, 1)

/-! ### AraliaClient HTTP layer (src/tools/aralia.py lines 74-129) and
the retry_on_failure decorator (src/utils/decorators.py lines 101-130). -/

/-- Outcome of one outbound HTTP request: a 200 with data, a non-200
status, or a raised requests exception. -/
inductive HttpOutcome : Type
  | ok (data : String)
  | status (code : Nat)
  | exn (msg : String)
  deriving DecidableEq

/-- Second pass of the attempt loop inside _make_request (attempt 1): a
non-200 now raises via raise_for_status and the except arm re-raises; a
requests exception also re-raises. Returns the outcome, the next request
index, and the re-authentication count accumulated so far. -/
def innerSecond (resp : Nat → HttpOutcome) (i rc : Nat) :
    Except String String × Nat × Nat :=
  match resp i with
  | .ok d => (.ok d, i + 1, rc)
  | .status c => (.error ("HTTPError: status " ++ toString c), i + 1, rc)
  | .exn m => (.error m, i + 1, rc)

/-- The `for attempt in range(2)` loop inside _make_request: attempt 0
breaks on 200, re-authenticates and retries on 401 (refresh modelled as
succeeding; the count of refresh cycles is returned), and on any other
failure (raise_for_status or a requests exception) retries once. -/
def innerRequest (resp : Nat → HttpOutcome) (i : Nat) :
    Except String String × Nat × Nat :=
  match resp i with
  | .ok d => (.ok d, i + 1, 0)
  | .status c =>
    if c == 401 then innerSecond resp (i + 1) 1
    else innerSecond resp (i + 1) 0
  | .exn _ => innerSecond resp (i + 1) 0

/-- The retry_on_failure decorator applied to _make_request with
max_retries = 2: `for attempt in range(max_retries + 1)`, re-raising
only when the last attempt fails. Fuel counts the remaining invocations. -/
def makeRequestGo (resp : Nat → HttpOutcome) : Nat → Nat → Nat →
    Except String String × Nat × Nat
  | i, rc, fuel + 1 =>
    match innerRequest resp i with
    | (.ok d, i2, rc2) => (.ok d, i2, rc + rc2)
    | (.error m, i2, rc2) =>
      if fuel == 0 then (.error m, i2, rc + rc2)
      else makeRequestGo resp i2 (rc + rc2) fuel
  | i, rc, 0 => (.error "unreachable", i, rc)

/-- AraliaClient._make_request as called through its decorator: up to 3
invocations of the inner request loop. Returns the outcome, the total
number of HTTP requests issued, and the total number of
re-authentication cycles. -/
def makeRequest (resp : Nat → HttpOutcome) : Except String String × Nat × Nat :=
  makeRequestGo resp 0 0 3

/-! ### Spec-side definition for the C3 comparison -/

/-- Allowed y-axis calculation per the words of the spec: count, sum, avg,
min, max, distinct_count for integer and float, restricted to count and
distinct_count when the type is nominal. Stated from the spec sentence,
for comparison against `keepY`. -/
def specAllowedCalc (ty cal : String) : Bool :=
  if ty == "integer" || ty == "float" then calcOptions.contains cal
  else if ty == "nominal" then ["count", "distinct_count"].contains cal
  else false

/-! ### Concrete example inputs used by witnesses and counterexamples -/

/-- Message of the RuntimeError raised by PlanningNode.execute when no
dataset yields metadata (src/nodes/planning.py line 43). -/
def noDataMsg : String :=
  "Unable to retrieve data from the searched planet, program terminated"

/-- Example dataset summary. -/
def exDataset : Dataset := { id := "d1", name := "Data One", sourceURL := "http://p" }

/-- Example planning input state holding one candidate dataset. -/
def exPlanState : PlanState := { question := some "q", response := [exDataset] }

/-- Metadata fetch that returns null for every candidate. -/
def exFetchNone : Dataset → Option (List (String × Column)) := fun _ => none

/-- Planning LLM trace whose output never parses. -/
def exAttPlanErr : Nat → Except String PlanJson := fun _ => .error "unparsable"

/-- Example nominal column. -/
def exCol : Column := { columnID := "c1", displayName := "City", type := "nominal" }

/-- Example integer column. -/
def exColInt : Column := { columnID := "c2", displayName := "Total", type := "integer" }

/-- Example column dict (keys equal to the stored columnID, as
AraliaClient.get_dataset_metadata builds it). -/
def exCols : List (String × Column) := [("c1", exCol), ("c2", exColInt)]

/-- Nominal y proposal with calculation count. -/
def exYnominal : YProp := { columnID := "c1", type := "nominal", calculation := "count" }

/-- Integer y proposal with calculation sum. -/
def exYint : YProp := { columnID := "c2", type := "integer", calculation := "sum" }

/-- Exploration rows of the C7 scenario. -/
def exRows7 : List Row := [{ x := [["A"]], values := [10] }, { x := [["B"]], values := [20] }]

/-- Chart config of the C7 scenario: x display name city, y display name
count. -/
def exCfg7 : ChartCfg := { name := some "c", x := [{ displayName := some "city" }],
                           y := [{ displayName := some "count" }] }

/-- Flattened table of the C7 scenario. -/
def exTable7 : Table := { header := ["city", "count"],
                          rows := [[Cell.s "A", Cell.n 10], [Cell.s "B", Cell.n 20]] }

/-- Chart whose underlying data call fails. -/
def exFailChart : EChart := { name := some "a", x := [{ displayName := some "city" }],
                              y := [{ displayName := some "count" }],
                              hasIdUrl := true, callResult := .error "ConnectionError" }

/-- Chart whose data call succeeds with the C7 rows. -/
def exOkChart : EChart := { name := some "b", x := [{ displayName := some "city" }],
                            y := [{ displayName := some "count" }],
                            hasIdUrl := true, callResult := .ok exRows7 }

/-- Malformed chart dict missing its id/sourceURL keys. -/
def exBadChart : EChart := { name := some "m", x := [], y := [],
                             hasIdUrl := false, callResult := .ok [] }

/-- Interpretation state whose search_results key is present but empty
while response holds a chart spec. -/
def exInterpEmpty : InterpState :=
  { question := "q", search_results := some [], response := some ["chart1"],
    interpretation_prompt := none }

/-- Interpretation state with non-empty search results. -/
def exInterpFull : InterpState :=
  { question := "q", search_results := some ["r1"], response := none,
    interpretation_prompt := none }

/-- Example filter-decision chart from the structured output. -/
def exQueryChart : QueryChart :=
  { sourceURL := "http://p", id := "d1", name := "Data One",
    x := [{ columnID := "c1", displayName := "City", type := "nominal", format := some "" },
          { columnID := "c3", displayName := "Day", type := "date", format := some "month" }],
    y := [{ columnID := "c2", displayName := "Total", calculation := "sum" }],
    filter := [{ columnID := "c1", displayName := "City", type := "nominal",
                 format := some "", operator := "in", value := ["A"] }] }

/-! ### Theorems -/

/-- Helper: a failed structured search call makes the whole attempt fail
with the same message. -/
theorem searchBody_error (att : Nat → Except String SearchOut)
    (ds : List (String × Dataset)) (i : Nat) (m : String) (h : att i = .error m) :
    searchBody att ds i = .error m := by
  simp [searchBody, h, Except.map]

/-- Helper: a failed planning LLM-and-parse step makes the whole attempt
fail with the same message. -/
theorem planningBody_error (att : Nat → Except String PlanJson)
    (ds : List (String × DSMeta)) (i : Nat) (m : String) (h : att i = .error m) :
    planningBody att ds i = .error m := by
  simp only [planningBody, h]
  rfl

/-- Helper: a failed structured filter call makes the whole attempt fail
with the same message. -/
theorem filterBody_error (att : Nat → Except String (List QueryChart))
    (i : Nat) (m : String) (h : att i = .error m) :
    filterBody att i = .error m := by
  simp [filterBody, h, Except.map]

/-- Helper: with an always-failing body, the search loop reaches
attempt 4 and raises there, having made five attempts. -/
theorem searchGo_allfail {α : Type} (body : Nat → Except String α)
    (h : ∀ i, ∃ m, body i = .error m) :
    ∀ fuel attempt, fuel + attempt = 5 → 0 < fuel →
      searchGo body attempt fuel = (.error searchFatalMsg, 5) := by
  intro fuel
  induction fuel with
  | zero => intro attempt _ hpos; omega
  | succ n ih =>
    intro attempt hsum _
    obtain ⟨m, hm⟩ := h attempt
    rw [searchGo, hm]
    by_cases ha : attempt = 4
    · subst ha
      simp
    · have hne : (attempt == 4) = false := by simp [ha]
      rw [hne]
      simp only [Bool.false_eq_true, if_false]
      exact ih (attempt + 1) (by omega) (by omega)

/-- Helper: with an always-failing body, the planning loop exhausts its
fuel, making one attempt per unit of fuel. -/
theorem planningGo_allfail {α : Type} (body : Nat → Except String α)
    (h : ∀ i, ∃ m, body i = .error m) :
    ∀ fuel attempt, planningGo body attempt fuel = (.error planningFatalMsg, attempt + fuel) := by
  intro fuel
  induction fuel with
  | zero => intro attempt; rfl
  | succ n ih =>
    intro attempt
    obtain ⟨m, hm⟩ := h attempt
    rw [planningGo, hm, ih (attempt + 1)]
    have he : attempt + 1 + n = attempt + (n + 1) := by omega
    rw [he]

/-- Helper: with an always-failing body, the filter-decision loop
exhausts its fuel, making one attempt per unit of fuel. -/
theorem filterGo_allfail {α : Type} (body : Nat → Except String α)
    (h : ∀ i, ∃ m, body i = .error m) :
    ∀ fuel attempt, filterGo body attempt fuel = (.error filterFatalMsg, attempt + fuel) := by
  intro fuel
  induction fuel with
  | zero => intro attempt; rfl
  | succ n ih =>
    intro attempt
    obtain ⟨m, hm⟩ := h attempt
    rw [filterGo, hm, ih (attempt + 1)]
    have he : attempt + 1 + n = attempt + (n + 1) := by omega
    rw [he]

/-- C1: when the LLM call fails on every attempt (malformed structured
output, JSON-parse failure or missing key, all modelled as an error
outcome of the per-attempt trace), the Search, Planning and
Filter-Decision retry loops each make exactly 5 attempts and then raise
their designated fatal error, and the corresponding execute functions
propagate exactly that error (Planning after its metadata fetch yielded
at least one dataset). -/
theorem c1_retry_exhaustion_five_attempts
    (attS : Nat → Except String SearchOut) (attP : Nat → Except String PlanJson)
    (attF : Nat → Except String (List QueryChart))
    (ds : List (String × Dataset)) (dsm : List (String × DSMeta))
    (hS : ∀ i, ∃ m, attS i = .error m)
    (hP : ∀ i, ∃ m, attP i = .error m)
    (hF : ∀ i, ∃ m, attF i = .error m) :
    searchRetry (searchBody attS ds) = (.error searchFatalMsg, 5)
    ∧ planningRetry (planningBody attP dsm) = (.error planningFatalMsg, 5)
    ∧ filterRetry (filterBody attF) = (.error filterFatalMsg, 5)
    ∧ searchExecute attS ds = .error searchFatalMsg
    ∧ filterExecute attF = .error filterFatalMsg
    ∧ ∀ (fetch : Dataset → Option (List (String × Column))) (s : PlanState),
        (planningMergeDatasets fetch s.response).isEmpty = false →
        planningExecute fetch attP s = .error planningFatalMsg := by
  have hS2 : ∀ i, ∃ m, searchBody attS ds i = .error m := by
    intro i
    obtain ⟨m, hm⟩ := hS i
    exact ⟨m, searchBody_error attS ds i m hm⟩
  have hF2 : ∀ i, ∃ m, filterBody attF i = .error m := by
    intro i
    obtain ⟨m, hm⟩ := hF i
    exact ⟨m, filterBody_error attF i m hm⟩
  have hsr : searchRetry (searchBody attS ds) = (.error searchFatalMsg, 5) :=
    searchGo_allfail _ hS2 5 0 (by omega) (by omega)
  have hfr : filterRetry (filterBody attF) = (.error filterFatalMsg, 5) :=
    filterGo_allfail _ hF2 5 0
  refine ⟨hsr, ?_, hfr, ?_, ?_, ?_⟩
  · have hP2 : ∀ i, ∃ m, planningBody attP dsm i = .error m := by
      intro i
      obtain ⟨m, hm⟩ := hP i
      exact ⟨m, planningBody_error attP dsm i m hm⟩
    exact planningGo_allfail _ hP2 5 0
  · rw [searchExecute, hsr]
  · rw [filterExecute, hfr]
  · intro fetch s hne
    have hP2 : ∀ i, ∃ m, planningBody attP (planningMergeDatasets fetch s.response) i = .error m := by
      intro i
      obtain ⟨m, hm⟩ := hP i
      exact ⟨m, planningBody_error attP _ i m hm⟩
    have hpr := planningGo_allfail _ hP2 5 0
    simp only [planningExecute, hne, Bool.false_eq_true, if_false, planningRetry]
    rw [hpr]

/-- C1 witness: concrete always-failing traces make all three loops stop
with their fatal errors after exactly 5 attempts. -/
theorem c1_witness :
    searchRetry (searchBody (fun _ => .error "bad") []) = (.error searchFatalMsg, 5)
    ∧ planningRetry (planningBody exAttPlanErr []) = (.error planningFatalMsg, 5)
    ∧ filterRetry (filterBody (fun _ => .error "bad")) = (.error filterFatalMsg, 5) := by
  have h := c1_retry_exhaustion_five_attempts (fun _ => .error "bad") exAttPlanErr
    (fun _ => .error "bad") [] []
    (fun _ => ⟨"bad", rfl⟩) (fun _ => ⟨"unparsable", rfl⟩) (fun _ => ⟨"bad", rfl⟩)
  exact ⟨h.1, h.2.1, h.2.2.1⟩

/-- C10: BaseNode.__call__ is total by construction (its type returns a
delta, never propagating an exception); whenever input validation or the
execute function of the node raises with message m, the returned delta has
exactly one errors entry, the node name followed by " node error: " and
the message m, and its
execution metadata records {node}_failed = True and the error string
under {node}_error. -/
theorem c10_nodecall_error_delta {σ α : Type} (nm : String)
    (validate : σ → Except String Bool) (exec : σ → Except String (NDelta α))
    (st : σ) (m : String)
    (h : validate st = .error m ∨ (validate st = .ok true ∧ exec st = .error m)) :
    nodeCall nm validate exec st =
      { errors := [nm ++ " node error: " ++ m],
        metadata := [(nm ++ "_failed", MetaV.b true), (nm ++ "_error", MetaV.s m)],
        payload := none } := by
  rcases h with hv | ⟨hv, he⟩
  · simp [nodeCall, hv, handleError]
  · simp [nodeCall, hv, he, handleError]

/-- C10 witness: a node whose execute raises is converted into the
formatted error delta. -/
theorem c10_witness :
    nodeCall (α := Unit) "search" (fun _ : Unit => .ok true) (fun _ => .error "boom") () =
      { errors := ["search node error: boom"],
        metadata := [("search_failed", MetaV.b true), ("search_error", MetaV.s "boom")],
        payload := none } :=
  c10_nodecall_error_delta "search" _ _ () "boom" (Or.inr ⟨rfl, rfl⟩)

/-- C5 counterexample: with a metadata fetch that returns null for the
only candidate, PlanningNode.execute does raise the designated fatal
error and produces no chart specs, but the assertion of the claim that the
run aborts is false: the BaseNode wrapper catches the exception and the
node invocation returns an ordinary error delta, so the graph proceeds
to the next stage. -/
theorem c5_counterexample :
    planningExecute exFetchNone exAttPlanErr exPlanState = .error noDataMsg
    ∧ planningCall exFetchNone exAttPlanErr exPlanState =
        { errors := ["planning node error: " ++ noDataMsg],
          metadata := [("planning_failed", MetaV.b true),
                       ("planning_error", MetaV.s noDataMsg)],
          payload := none } := by
  constructor
  · rfl
  · rfl

/-- C5 (amended): when the metadata fetch yields nothing for every
candidate dataset, PlanningNode.execute raises the designated fatal
error and no chart specs are produced; the node wrapper converts the
exception into an error delta with empty payload rather than aborting
the run. -/
theorem c5_planning_no_metadata
    (fetch : Dataset → Option (List (String × Column)))
    (att : Nat → Except String PlanJson) (s : PlanState)
    (hmd : planningMergeDatasets fetch s.response = [])
    (hq : s.question.isSome = true) :
    planningExecute fetch att s = .error noDataMsg
    ∧ planningCall fetch att s =
        { errors := ["planning node error: " ++ noDataMsg],
          metadata := [("planning_failed", MetaV.b true),
                       ("planning_error", MetaV.s noDataMsg)],
          payload := none } := by
  have he : planningExecute fetch att s = .error noDataMsg := by
    simp [planningExecute, hmd, noDataMsg]
  refine ⟨he, ?_⟩
  simp [planningCall, nodeCall, planningValidate, hq, he, handleError]

/-- C5 witness: the amended statement at the concrete one-dataset state
whose fetch yields null. -/
theorem c5_witness :
    planningExecute exFetchNone exAttPlanErr exPlanState = .error noDataMsg
    ∧ planningCall exFetchNone exAttPlanErr exPlanState =
        { errors := ["planning node error: " ++ noDataMsg],
          metadata := [("planning_failed", MetaV.b true),
                       ("planning_error", MetaV.s noDataMsg)],
          payload := none } :=
  c5_planning_no_metadata exFetchNone exAttPlanErr exPlanState rfl rfl

/-- C6: the selection comprehension of the search stage maps the keys of
the LLM response back into the candidate dictionary in response order,
silently dropping keys not present, and a successful structured response
never makes the attempt fail, whatever unknown keys it contains. -/
theorem c6_search_key_mapping (ds : List (String × Dataset)) (keys : List String)
    (att : Nat → Except String SearchOut) (i : Nat) (o : SearchOut) :
    searchSelect ds keys = keys.filterMap (fun k => assocFind k ds)
    ∧ (att i = .ok o → searchBody att ds i = .ok (searchSelect ds o.datasetKey)) := by
  constructor
  · induction keys with
    | nil => rfl
    | cons k rest ih =>
      rw [searchSelect, List.filterMap_cons]
      cases h : assocFind k ds with
      | none => simpa [h] using ih
      | some d => simpa [h] using ih
  · intro h
    simp [searchBody, h, Except.map]

/-- C6 witness: with one known candidate and one unknown key, the
selection keeps exactly the known candidate and the attempt succeeds. -/
theorem c6_witness :
    searchSelect [("d1", exDataset)] ["zz", "d1"] =
      (["zz", "d1"].filterMap fun k => assocFind k [("d1", exDataset)])
    ∧ searchBody (fun _ => .ok { datasetKey := ["zz", "d1"], datasetName := ["Data One"] })
        [("d1", exDataset)] 0 =
      .ok (searchSelect [("d1", exDataset)] ["zz", "d1"]) :=
  ⟨(c6_search_key_mapping [("d1", exDataset)] ["zz", "d1"]
      (fun _ => .ok { datasetKey := ["zz", "d1"], datasetName := ["Data One"] }) 0
      { datasetKey := ["zz", "d1"], datasetName := ["Data One"] }).1,
   (c6_search_key_mapping [("d1", exDataset)] ["zz", "d1"]
      (fun _ => .ok { datasetKey := ["zz", "d1"], datasetName := ["Data One"] }) 0
      { datasetKey := ["zz", "d1"], datasetName := ["Data One"] }).2 rfl⟩

/-- C3 counterexample: a nominal y proposal with calculation count is in
the allowed set stated by the spec sentence, yet the planning build
drops it: the guard admits only integer and float types. -/
theorem c3_counterexample :
    planningBuildY exCols [exYnominal] = .ok []
    ∧ specAllowedCalc "nominal" "count" = true
    ∧ keepY exYnominal = false := by
  refine ⟨rfl, rfl, rfl⟩

/-- C3 (amended): a y-axis field proposed by the planning LLM is
retained iff its proposed type is integer or float and its calculation
is one of count, sum, avg, min, max, distinct_count; nominal y proposals
are always dropped. Retention is stated over a column dictionary whose
keys match the stored columnID, as AraliaClient.get_dataset_metadata
builds it. -/
theorem c3_planning_y_validation (cols : List (String × Column)) (ys : List YProp)
    (out : List BuiltY)
    (hwf : ∀ k c, assocFind k cols = some c → c.columnID = k)
    (h : planningBuildY cols ys = .ok out) :
    out.map BuiltY.columnID = (ys.filter keepY).map YProp.columnID
    ∧ out.map BuiltY.calculation = (ys.filter keepY).map YProp.calculation := by
  induction ys generalizing out with
  | nil =>
    rw [planningBuildY] at h
    cases h
    exact ⟨rfl, rfl⟩
  | cons y rest ih =>
    rw [planningBuildY] at h
    by_cases hk : keepY y
    · rw [if_pos hk] at h
      cases hl : assocFind y.columnID cols with
      | none => rw [hl] at h; cases h
      | some c =>
        rw [hl] at h
        cases hr : planningBuildY cols rest with
        | error m => rw [hr] at h; cases h
        | ok built =>
          rw [hr] at h
          cases h
          have hid := hwf y.columnID c hl
          obtain ⟨ih1, ih2⟩ := ih built hr
          constructor
          · simp [List.filter_cons, hk, hid, ih1]
          · simp [List.filter_cons, hk, ih2]
    · rw [if_neg hk] at h
      obtain ⟨ih1, ih2⟩ := ih out h
      constructor
      · simp [List.filter_cons, hk, ih1]
      · simp [List.filter_cons, hk, ih2]

/-- C3 witness: on a mixed proposal list over a well-formed column dict,
the retained columnIDs and calculations are exactly those passing the
guard (the nominal proposal is dropped, the integer one kept). -/
theorem c3_witness :
    (planningBuildY exCols [exYnominal, exYint] =
      .ok [{ columnID := "c2", displayName := "Total", type := "integer",
             calculation := "sum" }])
    ∧ [{ columnID := "c2", displayName := "Total", type := "integer",
         calculation := "sum" : BuiltY }].map BuiltY.columnID =
        ([exYnominal, exYint].filter keepY).map YProp.columnID := by
  have hwf : ∀ k c, assocFind k exCols = some c → c.columnID = k := by
    intro k c hkc
    simp only [exCols, assocFind] at hkc
    by_cases h1 : k == "c1"
    · rw [if_pos h1] at hkc
      cases hkc
      exact (eq_of_beq h1).symm
    · rw [if_neg h1] at hkc
      by_cases h2 : k == "c2"
      · rw [if_pos h2] at hkc
        cases hkc
        exact (eq_of_beq h2).symm
      · rw [if_neg h2] at hkc
        cases hkc
  have hb : planningBuildY exCols [exYnominal, exYint] =
      .ok [{ columnID := "c2", displayName := "Total", type := "integer",
             calculation := "sum" }] := by rfl
  exact ⟨hb, (c3_planning_y_validation exCols [exYnominal, exYint] _ hwf hb).1⟩

/-- Helper: stripping the format of a filter entry changes no other
field. -/
theorem stripFilterFormat_fields (f : QFilter) :
    (stripFilterFormat f).columnID = f.columnID
    ∧ (stripFilterFormat f).displayName = f.displayName
    ∧ (stripFilterFormat f).type = f.type
    ∧ (stripFilterFormat f).operator = f.operator
    ∧ (stripFilterFormat f).value = f.value := by
  unfold stripFilterFormat
  split <;> exact ⟨rfl, rfl, rfl, rfl, rfl⟩

/-- Helper: stripping the format of an x entry changes no other field. -/
theorem stripXFormat_fields (x : QX) :
    (stripXFormat x).columnID = x.columnID
    ∧ (stripXFormat x).displayName = x.displayName
    ∧ (stripXFormat x).type = x.type := by
  unfold stripXFormat
  split <;> exact ⟨rfl, rfl, rfl⟩

/-- C4: after the filter-decision post-processing, every x-axis field
and every filter field whose type is not date, datetime or space carries
no format key; the filter value of the chart is the list of its (format
stripped) filter fields wrapped in exactly one extra list level, those
fields keeping their columnID, operator and value. -/
theorem c4_filter_decision_postprocess (c : QueryChart) :
    (fdPostChart c).x = c.x.map stripXFormat
    ∧ (∀ x2 ∈ (fdPostChart c).x,
        x2.type ≠ "date" → x2.type ≠ "datetime" → x2.type ≠ "space" → x2.format = none)
    ∧ (fdPostChart c).filter = [c.filter.map stripFilterFormat]
    ∧ (∀ f2 ∈ c.filter.map stripFilterFormat,
        f2.type ≠ "date" → f2.type ≠ "datetime" → f2.type ≠ "space" → f2.format = none)
    ∧ (c.filter.map stripFilterFormat).map QFilter.columnID = c.filter.map QFilter.columnID
    ∧ (c.filter.map stripFilterFormat).map QFilter.operator = c.filter.map QFilter.operator
    ∧ (c.filter.map stripFilterFormat).map QFilter.value = c.filter.map QFilter.value := by
  refine ⟨rfl, ?_, rfl, ?_, ?_, ?_, ?_⟩
  · intro x2 hx2 h1 h2 h3
    obtain ⟨x0, hmem, hx0⟩ := List.mem_map.mp hx2
    subst hx0
    have ht : (stripXFormat x0).type = x0.type := (stripXFormat_fields x0).2.2
    rw [ht] at h1 h2 h3
    have hcond : (x0.type == "date" || x0.type == "datetime" || x0.type == "space") = false := by
      simp [h1, h2, h3]
    simp [stripXFormat, hcond]
  · intro f2 hf2 h1 h2 h3
    obtain ⟨f0, hmem, hf0⟩ := List.mem_map.mp hf2
    subst hf0
    have ht : (stripFilterFormat f0).type = f0.type := (stripFilterFormat_fields f0).2.2.1
    rw [ht] at h1 h2 h3
    have hcond : (f0.type == "date" || f0.type == "datetime" || f0.type == "space") = false := by
      simp [h1, h2, h3]
    simp [stripFilterFormat, hcond]
  · rw [List.map_map]
    exact List.map_congr_left fun f _ => (stripFilterFormat_fields f).1
  · rw [List.map_map]
    exact List.map_congr_left fun f _ => (stripFilterFormat_fields f).2.2.2.1
  · rw [List.map_map]
    exact List.map_congr_left fun f _ => (stripFilterFormat_fields f).2.2.2.2

/-- C4 witness: on a chart with a nominal and a date field, the nominal
formats are removed, the date format kept, and the filter list is
wrapped once. -/
theorem c4_witness :
    (fdPostChart exQueryChart).filter = [exQueryChart.filter.map stripFilterFormat]
    ∧ (∀ f2 ∈ exQueryChart.filter.map stripFilterFormat,
        f2.type ≠ "date" → f2.type ≠ "datetime" → f2.type ≠ "space" → f2.format = none)
    ∧ (fdPostChart exQueryChart).x.map QX.format = [none, some "month"] := by
  refine ⟨(c4_filter_decision_postprocess exQueryChart).2.2.1,
          (c4_filter_decision_postprocess exQueryChart).2.2.2.1, ?_⟩
  rfl

/-- C2 counterexample: with two charts where the data call of the first
one fails, the stage completes with both entries present, but the
json_data key of the failed chart is absent rather than null: the swallowed
call failure yields empty rows, and prepare_chart_data then returns a
dict without a json_data key, so `chart.update` never touches it. -/
theorem c2_counterexample :
    (executionExecute [exFailChart, exOkChart]).search_results.map List.length = [2]
    ∧ (processChart exFailChart).jsonData = JsonField.absent
    ∧ JsonField.absent ≠ JsonField.null
    ∧ (processChart exFailChart).errorMsg = some "No data available"
    ∧ (processChart exOkChart).jsonData = JsonField.recs (toRecords (tableHead 400 exTable7)) := by
  exact ⟨rfl, rfl, by decide, rfl, rfl⟩

/-- C2 (amended): ExecutionNode.execute is total (its type returns the
delta; each chart is processed inside its own try/except) and its output
wraps all N processed charts; a well-formed chart whose data call fails
keeps its json_data slot unchanged (hence absent) while gaining
`data = None` and the no-data error message; json_data is set to null
only when the per-chart body raises, as for a chart dict missing its
id/sourceURL keys. -/
theorem c2_execution_isolation (charts : List EChart) (c : EChart) (e : String) :
    (executionExecute charts).search_results = [charts.map processChart]
    ∧ (charts.map processChart).length = charts.length
    ∧ (c.hasIdUrl = true → c.callResult = .error e →
        (processChart c).jsonData = c.jsonData
        ∧ (processChart c).dataF = some none
        ∧ (processChart c).errorMsg = some "No data available")
    ∧ (c.hasIdUrl = false → (processChart c).jsonData = JsonField.null) := by
  refine ⟨rfl, List.length_map _ _, ?_, ?_⟩
  · intro h1 h2
    have hexp : executeExploration c = .ok [] := by
      simp [executeExploration, h1, h2]
    simp [processChart, chartTryBody, hexp, prepareChartData, applyUpdate, Option.or]
  · intro h1
    have hexp : executeExploration c = .error "KeyError: id" := by
      simp [executeExploration, h1]
    simp [processChart, chartTryBody, hexp]

/-- C2 witness: the amended statement at a chart with a failing call and
at a malformed chart. -/
theorem c2_witness :
    ((processChart exFailChart).jsonData = exFailChart.jsonData
     ∧ (processChart exFailChart).dataF = some none
     ∧ (processChart exFailChart).errorMsg = some "No data available")
    ∧ (processChart exBadChart).jsonData = JsonField.null :=
  ⟨(c2_execution_isolation [exFailChart] exFailChart "ConnectionError").2.2.1 rfl rfl,
   (c2_execution_isolation [] exBadChart "x").2.2.2 rfl⟩

/-- C7: on rows x A values 10 and x B values 20 with display names city
and count, prepare_chart_data produces the table with columns city and
count and rows (A,10),(B,20); json_data is that table serialized to
records after truncation to the first 400 rows. -/
theorem c7_chart_data_scenario :
    prepareChartData exRows7 exCfg7 =
      { data := some (some exTable7),
        jsonData := some (toRecords (tableHead 400 exTable7)),
        csvPath := some (csvFilePath "c"),
        rowCount := some 2,
        colCount := some 2,
        errorMsg := none }
    ∧ exTable7.header = ["city", "count"]
    ∧ toRecords (tableHead 400 exTable7) =
        [[("city", Cell.s "A"), ("count", Cell.n 10)],
         [("city", Cell.s "B"), ("count", Cell.n 20)]] := by
  exact ⟨by rfl, rfl, rfl⟩

/-- C8 counterexample: when the search_results key is present but holds
the empty list while response holds chart specs, the interpretation
stage does not fall back to the chart specs: `state.get` returns the
present empty list. -/
theorem c8_counterexample :
    interpSelectInfo exInterpEmpty = []
    ∧ exInterpEmpty.response = some ["chart1"]
    ∧ ([] : List String) ≠ ["chart1"] := by
  exact ⟨rfl, rfl, by decide⟩

/-- C8 (amended): the interpretation stage uses search_results whenever
the key is present (even empty) and falls back to response only when the
key is absent; its execute invokes the LLM exactly once, returns a delta
setting final_response to the LLM content, and the delta carries no
search_results entry (the accumulator is left unchanged). -/
theorem c8_interpretation (llm : String → String) (s : InterpState) (l : List String) :
    (s.search_results = some l → interpSelectInfo s = l)
    ∧ (s.search_results = none → interpSelectInfo s = s.response.getD [])
    ∧ (interpExecute llm s).1.final_response = some (llm (interpPrompt s))
    ∧ (interpExecute llm s).1.search_results = none
    ∧ (interpExecute llm s).2 = 1 := by
  refine ⟨?_, ?_, rfl, rfl, rfl⟩
  · intro h
    simp [interpSelectInfo, h]
  · intro h
    simp [interpSelectInfo, h]

/-- C8 witness: the amended statement at a state with non-empty
search results and a constant LLM. -/
theorem c8_witness :
    interpSelectInfo exInterpFull = ["r1"]
    ∧ (interpExecute (fun _ => "answer") exInterpFull).1.final_response = some "answer"
    ∧ (interpExecute (fun _ => "answer") exInterpFull).1.search_results = none
    ∧ (interpExecute (fun _ => "answer") exInterpFull).2 = 1 :=
  ⟨(c8_interpretation (fun _ => "answer") exInterpFull ["r1"]).1 rfl,
   (c8_interpretation (fun _ => "answer") exInterpFull ["r1"]).2.2.1,
   (c8_interpretation (fun _ => "answer") exInterpFull ["r1"]).2.2.2.1,
   (c8_interpretation (fun _ => "answer") exInterpFull ["r1"]).2.2.2.2⟩

/-- C9 counterexample: with every HTTP request raising a requests
exception, the decorated _make_request issues 6 HTTP requests before the
exception propagates, refuting the 2-request bound of the claim. -/
theorem c9_counterexample :
    makeRequest (fun _ => HttpOutcome.exn "connection error") =
      (.error "connection error", 6, 0)
    ∧ 2 < (makeRequest (fun _ => HttpOutcome.exn "connection error")).2.1 := by
  exact ⟨rfl, by decide⟩

/-- Helper: one invocation of the inner attempt loop of _make_request
issues one or two HTTP requests and at most one re-authentication. -/
theorem innerRequest_bounds (resp : Nat → HttpOutcome) (i : Nat) :
    i < (innerRequest resp i).2.1
    ∧ (innerRequest resp i).2.1 ≤ i + 2
    ∧ (innerRequest resp i).2.2 ≤ 1 := by
  have hs : ∀ j rc, (innerSecond resp j rc).2.1 = j + 1 ∧ (innerSecond resp j rc).2.2 = rc := by
    intro j rc
    cases h : resp j <;> simp [innerSecond, h]
  cases h : resp i with
  | ok d =>
    simp only [innerRequest, h]
    omega
  | status c =>
    simp only [innerRequest, h]
    by_cases hc : (c == 401) = true
    · rw [if_pos hc]
      obtain ⟨h1, h2⟩ := hs (i + 1) 1
      omega
    · rw [if_neg hc]
      obtain ⟨h1, h2⟩ := hs (i + 1) 0
      omega
  | exn m =>
    simp only [innerRequest, h]
    obtain ⟨h1, h2⟩ := hs (i + 1) 0
    omega

/-- Helper: the decorator loop issues at most 2 HTTP requests per unit
of fuel. -/
theorem makeRequestGo_bound (resp : Nat → HttpOutcome) :
    ∀ fuel i rc, (makeRequestGo resp i rc fuel).2.1 ≤ i + 2 * fuel := by
  intro fuel
  induction fuel with
  | zero =>
    intro i rc
    simp [makeRequestGo]
  | succ n ih =>
    intro i rc
    obtain ⟨_, hle0, _⟩ := innerRequest_bounds resp i
    rcases hir : innerRequest resp i with ⟨r, i2, rc2⟩
    have hle : i2 ≤ i + 2 := by rw [hir] at hle0; exact hle0
    simp only [makeRequestGo, hir]
    cases r with
    | ok d =>
      change i2 ≤ i + 2 * (n + 1)
      omega
    | error m =>
      cases n with
      | zero =>
        change i2 ≤ i + 2 * (0 + 1)
        omega
      | succ k =>
        change (makeRequestGo resp i2 (rc + rc2) (k + 1)).2.1 ≤ i + 2 * (k + 1 + 1)
        have hr := ih i2 (rc + rc2)
        omega

/-- C9 (amended): each invocation of the attempt loop inside
_make_request issues at most 2 HTTP requests with at most one
re-authentication cycle; the surrounding retry_on_failure decorator
(max_retries = 2) re-invokes the whole call up to 3 times, so at most 6
HTTP requests are issued before a failure propagates as a request
exception. -/
theorem c9_http_retry_bounds (resp : Nat → HttpOutcome) (i : Nat) :
    i < (innerRequest resp i).2.1
    ∧ (innerRequest resp i).2.1 ≤ i + 2
    ∧ (innerRequest resp i).2.2 ≤ 1
    ∧ (makeRequest resp).2.1 ≤ 6 := by
  obtain ⟨h1, h2, h3⟩ := innerRequest_bounds resp i
  refine ⟨h1, h2, h3, ?_⟩
  have := makeRequestGo_bound resp 3 0 0
  simpa [makeRequest] using this

end AraliaOpenRAG
